import Mathlib

/-
Verification development for the zeitlabs-payfort payment gateway adapter.

The adapter consumes PayFort callbacks (a browser redirect callback and a
server-to-server webhook), verifies a keyed signature over the form payload,
validates the payload format, and applies an idempotent settlement to a cart
(order).  The Python views (`payfort/views.py`), processor
(`payfort/processor.py`) and status endpoint are embedded below as pure Lean
functions over an explicit store; form payloads are association lists in
insertion order, and the effects of each HTTP handler (response, store
mutation, audit events, log lines) are returned explicitly.
-/

namespace Payfort

/-- A form-encoded payload (a Python dict of strings), kept in insertion order. -/
abbrev Payload := List (String × String)

/-- `data.get(k)`: the first binding of `k`, if any. -/
def getField (p : Payload) (k : String) : Option String :=
  (p.find? (fun e => e.1 == k)).map (fun e => e.2)

/-- Python truthiness applied to `request.POST.get(k)`: a missing key and an
empty string are both falsy, so both are mapped to `none`. -/
def getNonEmpty (p : Payload) (k : String) : Option String :=
  match getField p k with
  | none => none
  | some v => if v = "" then none else some v

/-- Lexicographic comparison of two strings by code point, Python's `<` on
`str`, written on the underlying character lists. -/
def charListLt : List Char → List Char → Bool
  | [], [] => false
  | [], _ :: _ => true
  | _ :: _, [] => false
  | a :: as, b :: bs =>
    if a < b then true
    else if b < a then false
    else charListLt as bs

theorem charListLt_asymm : ∀ {a b : List Char},
    charListLt a b = true → charListLt b a = false
  | [], [], h => by simp [charListLt] at h
  | [], _ :: _, _ => by simp [charListLt]
  | _ :: _, [], h => by simp [charListLt] at h
  | a :: as, b :: bs, h => by
    simp only [charListLt] at h ⊢
    by_cases hab : a < b
    · simp [hab, lt_asymm hab]
    · by_cases hba : b < a
      · simp [hab, hba] at h
      · simp only [hab, hba, if_false] at h
        simp [hab, hba, charListLt_asymm h]

theorem charListLt_trans : ∀ {a b c : List Char},
    charListLt a b = true → charListLt b c = true → charListLt a c = true
  | [], [], _, h, _ => by simp [charListLt] at h
  | [], _ :: _, [], _, h2 => by simp [charListLt] at h2
  | [], _ :: _, _ :: _, _, _ => by simp [charListLt]
  | _ :: _, [], _, h, _ => by simp [charListLt] at h
  | _ :: _, _ :: _, [], _, h2 => by simp [charListLt] at h2
  | a :: as, b :: bs, c :: cs, h1, h2 => by
    simp only [charListLt] at h1 h2 ⊢
    by_cases hab : a < b
    · by_cases hbc : b < c
      · simp [lt_trans hab hbc]
      · by_cases hcb : c < b
        · simp [hbc, hcb] at h2
        · have : b = c := le_antisymm (le_of_not_lt hcb) (le_of_not_lt hbc)
          subst this
          simp [hab]
    · by_cases hba : b < a
      · simp [hab, hba] at h1
      · have : a = b := le_antisymm (le_of_not_lt hba) (le_of_not_lt hab)
        subst this
        simp only [hab, hba, if_false] at h1
        by_cases hbc : a < c
        · simp [hbc]
        · by_cases hcb : c < a
          · simp [hbc, hcb] at h2
          · simp only [hbc, hcb, if_false] at h2 ⊢
            exact charListLt_trans h1 h2

theorem charListLt_conn : ∀ {a b : List Char},
    charListLt a b = false → charListLt b a = false → a = b
  | [], [], _, _ => rfl
  | [], _ :: _, h1, _ => by simp [charListLt] at h1
  | _ :: _, [], _, h2 => by simp [charListLt] at h2
  | a :: as, b :: bs, h1, h2 => by
    simp only [charListLt] at h1 h2
    by_cases hab : a < b
    · simp [hab] at h1
    · by_cases hba : b < a
      · simp [hab, hba] at h2
      · have hEq : a = b := le_antisymm (le_of_not_lt hba) (le_of_not_lt hab)
        subst hEq
        simp only [hab, if_false] at h1 h2
        rw [charListLt_conn h1 h2]

/-- ASCII lowercasing of a field name, as Python `str.lower` acts on the ASCII
protocol field names (`Char.toLower` lowercases exactly the ASCII uppercase
letters). -/
def lowerKey (s : String) : List Char :=
  s.data.map Char.toLower

/-- The sort ordering on fields: full case-insensitive comparison of the key.
Python sorts with `sorted(params, key=lambda arg: arg.lower())`, a stable sort
under this (pre)order; `a ≤ b` is `not (b < a)`. -/
def fieldLe (a b : String × String) : Prop :=
  charListLt (lowerKey b.1) (lowerKey a.1) = false

/-- The corresponding strict ordering, used to show that the sorted order is
unique when no two keys collide case-insensitively. -/
def fieldLt (a b : String × String) : Prop :=
  charListLt (lowerKey a.1) (lowerKey b.1) = true

instance : DecidableRel fieldLe := fun a b =>
  inferInstanceAs (Decidable (charListLt (lowerKey b.1) (lowerKey a.1) = false))

instance : IsTotal (String × String) fieldLe := by
  refine ⟨fun a b => ?_⟩
  cases h : charListLt (lowerKey b.1) (lowerKey a.1)
  · exact Or.inl h
  · exact Or.inr (charListLt_asymm h)

instance : IsTrans (String × String) fieldLe := by
  refine ⟨fun a b c h1 h2 => ?_⟩
  unfold fieldLe at h1 h2 ⊢
  cases hv : charListLt (lowerKey c.1) (lowerKey a.1)
  · rfl
  · exfalso
    cases hbc : charListLt (lowerKey b.1) (lowerKey c.1)
    · have hcb : lowerKey c.1 = lowerKey b.1 := charListLt_conn h2 hbc
      rw [hcb] at hv
      rw [hv] at h1
      exact Bool.noConfusion h1
    · have hba : charListLt (lowerKey b.1) (lowerKey a.1) = true :=
        charListLt_trans hbc hv
      rw [hba] at h1
      exact Bool.noConfusion h1

instance : IsAntisymm (String × String) fieldLt := by
  refine ⟨fun a b h1 h2 => ?_⟩
  unfold fieldLt at h1 h2
  have hf := charListLt_asymm h1
  rw [hf] at h2
  exact Bool.noConfusion h2

theorem fieldLt_of_fieldLe_of_ne {a b : String × String} (h : fieldLe a b)
    (hne : lowerKey a.1 ≠ lowerKey b.1) : fieldLt a b := by
  unfold fieldLe at h
  unfold fieldLt
  cases hv : charListLt (lowerKey a.1) (lowerKey b.1)
  · exact absurd (charListLt_conn hv h) hne
  · rfl

/-- Step 1 of the signature algorithm: the signature field itself is excluded
from the input field-map. -/
def stripSignatureField (p : Payload) : Payload :=
  p.filter (fun e => e.1 != "signature")

/-- Step 2: sort the remaining fields case-insensitively, ascending, with a
stable sort (Python `sorted`). -/
def sortFields (p : Payload) : Payload :=
  p.insertionSort fieldLe

/-- Step 3: concatenate `key=value` for each field, with no separators. -/
def concatPairs (p : Payload) : String :=
  p.foldr (fun e acc => e.1 ++ "=" ++ e.2 ++ acc) ""

/-- Modelled from the spec: `get_signature` of `payfort/helpers.py`, which is
absent from `src/` (only its callers and tests are present).  Per section 4.1 of
the spec: exclude the signature field, sort the rest case-insensitively
ascending, concatenate `key=value` pairs with no separator, wrap the result
with the secret phrase at both ends, and hash with the configured digest.
The configured digest is abstracted as `hashHex`, a function from the
canonical string to its lowercase hex digest. -/
def getSignature (hashHex : String → String) (secret : String) (p : Payload) : String :=
  hashHex (secret ++ concatPairs (sortFields (stripSignatureField p)) ++ secret)

/-- Sorting is invariant under permutation of the input provided the
lowercased keys are pairwise distinct: two sorted permutations of each other
under a strict order are equal. -/
theorem sortFields_eq_of_perm {l₁ l₂ : Payload} (hperm : l₁.Perm l₂)
    (hnd : (l₁.map (fun e => lowerKey e.1)).Nodup) :
    sortFields l₁ = sortFields l₂ := by
  have hp : (sortFields l₁).Perm (sortFields l₂) :=
    (List.perm_insertionSort fieldLe l₁).trans
      (hperm.trans (List.perm_insertionSort fieldLe l₂).symm)
  have hs₁ : List.Sorted fieldLe (sortFields l₁) := List.sorted_insertionSort fieldLe l₁
  have hs₂ : List.Sorted fieldLe (sortFields l₂) := List.sorted_insertionSort fieldLe l₂
  have hpw : l₁.Pairwise (fun a b => lowerKey a.1 ≠ lowerKey b.1) := by
    have := hnd
    rwa [List.Nodup, List.pairwise_map] at this
  have hsymm : ∀ {x y : String × String},
      (fun a b : String × String => lowerKey a.1 ≠ lowerKey b.1) x y →
      (fun a b : String × String => lowerKey a.1 ≠ lowerKey b.1) y x :=
    fun h => Ne.symm h
  have hpw₁ : (sortFields l₁).Pairwise (fun a b => lowerKey a.1 ≠ lowerKey b.1) :=
    ((List.perm_insertionSort fieldLe l₁).pairwise_iff hsymm).mpr hpw
  have hpw₂ : (sortFields l₂).Pairwise (fun a b => lowerKey a.1 ≠ lowerKey b.1) :=
    ((List.perm_insertionSort fieldLe l₂).pairwise_iff hsymm).mpr
      ((hperm.pairwise_iff hsymm).mp hpw)
  have hlt₁ : List.Sorted fieldLt (sortFields l₁) :=
    (hs₁.and hpw₁).imp (fun h => fieldLt_of_fieldLe_of_ne h.1 h.2)
  have hlt₂ : List.Sorted fieldLt (sortFields l₂) :=
    (hs₂.and hpw₂).imp (fun h => fieldLt_of_fieldLe_of_ne h.1 h.2)
  exact List.eq_of_perm_of_sorted hp hlt₁ hlt₂

/-- Modelled from the spec: `SUCCESS_STATUS` of the missing
`payfort/helpers.py` — the PSP success sentinel for the `status` field; the
repository's tests fix it to the string "14". -/
def SUCCESS_STATUS : String := "14"

/-- Modelled from the spec: the fixed set of mandatory response fields checked
by `verify_response_format` of the missing `payfort/helpers.py` (spec section
4.2: transaction id, status, response message, payment method, amount,
currency, merchant reference). -/
def mandatoryResponseFields : List String :=
  ["merchant_reference", "fort_id", "status", "response_message",
   "payment_option", "amount", "currency"]

/-- Modelled from the spec: `verify_response_format` of the missing
`payfort/helpers.py` (spec section 4.2): every mandatory field must be present
and non-empty; on failure it raises `PayFortException`, surfaced here as
`.error`. -/
def verifyResponseFormat (p : Payload) : Except String Unit :=
  match mandatoryResponseFields.find? (fun f => (getNonEmpty p f).isNone) with
  | some f => .error ("PayFortException: mandatory field missing or empty: " ++ f)
  | none => .ok ()

/-- A cart (order): the Django model row, with its string status column.
`Cart.Status` is a Django `TextChoices` whose values are the lowercase
strings below. -/
structure Cart where
  id : Nat
  status : String
deriving DecidableEq, Repr

def Cart.Status.PENDING : String := "pending"

def Cart.Status.PROCESSING : String := "processing"

def Cart.Status.PAID : String := "paid"

/-- A persisted transaction record (one settlement attempt). -/
structure TransactionRec where
  gateway : String
  cartId : Option Nat
  gatewayTransactionId : String
  status : String
  amount : String
deriving DecidableEq, Repr

def Invoice.Status.DRAFT : String := "draft"

def Invoice.Status.PAID : String := "paid"

/-- A persisted invoice.  `relatedTransactionGatewayId` is the
`gateway_transaction_id` of the related transaction row (`none` when the
foreign key is null), which is what the status view joins on. -/
structure InvoiceRec where
  invoiceNumber : String
  cartId : Nat
  status : String
  relatedTransactionGatewayId : Option String
deriving DecidableEq, Repr

/-- The persisted state shared by all requests: carts, sites, transaction
records, and invoices. -/
structure Store where
  carts : List Cart
  siteIds : List Nat
  transactions : List TransactionRec
  invoices : List InvoiceRec
deriving DecidableEq, Repr

/-- `AuditLog.AuditActions` members used by this adapter. -/
inductive AuditAction
  | RECEIVED_RESPONSE
  | BAD_RESPONSE_SIGNATURE
  | RESPONSE_INVALID_CART
  | DUPLICATE_TRANSACTION
  | TRANSACTION_ROLLED_BACK
  | CART_FULFILLED
deriving DecidableEq, Repr

/-- The `context` dict passed to `AuditLog.log`, one constructor per shape
used in the views. -/
inductive AuditContext
  | payloadData (data : Payload)
  | invalidCart (cartStatus : String) (requiredCartState : String)
  | duplicate (transactionId : String) (cartStatus : String)
  | rolledBack (transactionId : String) (cartId : Nat) (siteId : Nat)
  | empty
deriving DecidableEq, Repr

/-- One `AuditLog.log(action=..., cart=..., gateway=..., context=...)` call. -/
structure AuditEvent where
  action : AuditAction
  cart : Option Nat
  gateway : String
  context : AuditContext
deriving DecidableEq, Repr

/-- Logger calls made by the views, kept structured (the arguments that the
f-strings interpolate). -/
inductive LogEvent
  | unresolvedReference
  | invalidReference (reference : String)
  | badSignatureReceived
  | unsuccessfulPayment (status : Option String)
  | invalidCartStatus (cartId : Nat) (status : String)
  | recordingTransaction (cartId : Nat)
  | settlementRolledBack (cartId : Nat) (cause : String)
  | fulfilled (cartId : Nat)
  | fulfillOrInvoiceFailed (cartId : Nat) (cause : String)
  | formatValidationFailed (message : String)
  | paymentFailed (reference : Option String) (status : Option String)
      (responseCode : Option String)
  | statusParamsMissing (fieldNames : String)
  | statusPaidNoInvoice
deriving DecidableEq, Repr

/-- The result the transport layer sees from the webhook handler: either an
`HttpResponse(status=...)` or an exception that escaped the handler. -/
inductive HttpResult
  | response (status : Nat)
  | unhandledException (message : String)
deriving DecidableEq, Repr

/-- The gateway configuration: response secret phrase, configured digest
(abstracted as the function from canonical string to lowercase hex digest),
and the URLs produced by Django's `reverse`. -/
structure PayFortConfig where
  responseShaPhrase : String
  hashHex : String → String
  statusUrl : String
  errorUrlOf : String → String
  successUrlOf : String → String
  invoiceUrlOf : String → String

/-- Fault injection for the external collaborators (spec section 6): an
unexpected failure inside the atomic `handle_payment`, a failure of
`create_invoice`, and a failure of `fulfill_cart`.  `none` means the
collaborator succeeds; `some cause` makes it raise with that message. -/
structure Collaborators where
  settlementFault : Option String
  invoiceFault : Option String
  fulfillmentFault : Option String
deriving DecidableEq, Repr

/-- All collaborators succeed. -/
def noFaults : Collaborators := ⟨none, none, none⟩

/-- `reference.split('-', 1)`: split at the first dash; `none` when there is
no dash at all (Python raises `ValueError` on unpacking). -/
def splitFirstDash : List Char → Option (List Char × List Char)
  | [] => none
  | c :: rest =>
    if c = '-' then some ([], rest)
    else
      match splitFirstDash rest with
      | none => none
      | some (l, r) => some (c :: l, r)

def splitReference (ref : String) : Option (String × String) :=
  match splitFirstDash ref.data with
  | none => none
  | some (l, r) => some (String.mk l, String.mk r)

/-- Digit-by-digit accumulator for `int(s)`. -/
def digitsToNat (acc : Nat) : List Char → Option Nat
  | [] => some acc
  | c :: rest =>
    if c.isDigit then digitsToNat (acc * 10 + (c.toNat - 48)) rest else none

/-- `int(s)` then primary-key lookup: Django raises `ValueError` for a
non-numeric id, caught by the views together with the not-found error.
`none` for the empty string or any non-digit character. -/
def parseId (s : String) : Option Nat :=
  match s.data with
  | [] => none
  | l => digitsToNat 0 l

def findCart (carts : List Cart) (cid : Nat) : Option Cart :=
  carts.find? (fun c => c.id == cid)

def findSite (siteIds : List Nat) (sid : Nat) : Option Nat :=
  siteIds.find? (fun s => s == sid)

/-- The audit event emitted by the `cart` property when the reference does not
resolve (`views.py` lines 42-50). -/
def invalidCartNoneEvent : AuditEvent :=
  { action := .RESPONSE_INVALID_CART, cart := none, gateway := "payfort",
    context := .invalidCart "None" Cart.Status.PROCESSING }

/-- `PayFortBaseView.cart` (`views.py` lines 32-50): resolve the cart from the
`merchant_reference` form field, logging a `RESPONSE_INVALID_CART` audit event
when the reference is present but unresolvable; a missing or empty reference
returns `None` without logging.  The property re-runs on every access, so it
is modelled as a pure function returning the events of one evaluation. -/
def cartProperty (carts : List Cart) (p : Payload) : Option Cart × List AuditEvent :=
  match getNonEmpty p "merchant_reference" with
  | none => (none, [])
  | some ref =>
    match splitReference ref with
    | none => (none, [invalidCartNoneEvent])
    | some (_, cartIdStr) =>
      match (parseId cartIdStr).bind (findCart carts) with
      | none => (none, [invalidCartNoneEvent])
      | some c => (some c, [])

/-- `PayFortBaseView.site` (`views.py` lines 52-64): resolve the site id from
the `merchant_reference` form field; failures log nothing and return `None`. -/
def siteProperty (siteIds : List Nat) (p : Payload) : Option Nat :=
  match getNonEmpty p "merchant_reference" with
  | none => none
  | some ref =>
    match splitReference ref with
    | none => none
    | some (siteIdStr, _) => (parseId siteIdStr).bind (findSite siteIds)

/-- Predicate for an existing settlement with the same `(gateway, psp_txn_id)`
pair, the uniqueness key of the transaction table. -/
def isDuplicateTxn (transactionId : String) (t : TransactionRec) : Bool :=
  t.gateway == "payfort" && t.gatewayTransactionId == transactionId

/-- The `Processing → Paid` status flip performed by the settlement applier. -/
def markPaid (carts : List Cart) (cid : Nat) : List Cart :=
  carts.map (fun c => if c.id == cid then { c with status := Cart.Status.PAID } else c)

/-- The store produced by a successful settlement: a new transaction record is
appended and the cart is flipped to `Paid`, in one atomic scope. -/
def settleStore (store : Store) (cart : Cart) (transactionStatus transactionId amount : String) :
    Store :=
  { store with
    transactions := store.transactions ++
      [{ gateway := "payfort", cartId := some cart.id,
         gatewayTransactionId := transactionId, status := transactionStatus,
         amount := amount }],
    carts := markPaid store.carts cart.id }

/-- Outcome of the atomic settlement attempt. -/
inductive SettleResult
  | ok (newStore : Store)
  | duplicateTransaction
  | otherError (cause : String)
deriving DecidableEq, Repr

/-- Modelled from the spec: `BaseProcessor.handle_payment` of the external
`zeitlabs_payments` package (the Settlement Applier, spec section 4.5), which
is not part of this repository's sources.  Inside a single atomic scope it
fails with `DuplicateTransaction` when `(gateway, psp_txn_id)` already exists,
fails with `OtherError` wrapping any unexpected collaborator failure (injected
through `env.settlementFault`), and otherwise persists the transaction record
and flips the order status to `Paid`. -/
def handlePayment (env : Collaborators) (store : Store) (cart : Cart)
    (transactionStatus transactionId amount : String) : SettleResult :=
  if store.transactions.any (isDuplicateTxn transactionId) then
    .duplicateTransaction
  else
    match env.settlementFault with
    | some cause => .otherError cause
    | none => .ok (settleStore store cart transactionStatus transactionId amount)

/-- Modelled from the spec: the invoice row produced by the external
`create_invoice` collaborator (spec section 6) after a successful settlement,
referencing the transaction record. -/
def newInvoice (cart : Cart) (transactionId : String) : InvoiceRec :=
  { invoiceNumber := "INV-" ++ toString cart.id, cartId := cart.id,
    status := Invoice.Status.PAID, relatedTransactionGatewayId := some transactionId }

/-- What one webhook request produced: the HTTP result, the resulting store,
the audit events and the log lines, in order. -/
structure FeedbackOutput where
  result : HttpResult
  store : Store
  events : List AuditEvent
  logs : List LogEvent
deriving DecidableEq, Repr

/-- The `RECEIVED_RESPONSE` audit event recorded first thing by the webhook
(`views.py` lines 136-141), with the full raw payload as context. -/
def receivedEvent (cOpt : Option Cart) (p : Payload) : AuditEvent :=
  { action := .RECEIVED_RESPONSE, cart := cOpt.map (fun c => c.id),
    gateway := "payfort", context := .payloadData p }

/-- `views.py` lines 221-234: post-commit invoice creation and fulfillment,
best effort — a failure of either is caught and logged, never rolled back. -/
def feedbackFulfill (env : Collaborators) (store1 : Store) (cart : Cart)
    (transactionId : String) (evs : List AuditEvent) (logs : List LogEvent) :
    FeedbackOutput :=
  match env.invoiceFault with
  | some cause =>
    { result := .response 200, store := store1, events := evs,
      logs := logs ++ [.fulfillOrInvoiceFailed cart.id cause] }
  | none =>
    let store2 := { store1 with invoices := store1.invoices ++ [newInvoice cart transactionId] }
    match env.fulfillmentFault with
    | some cause =>
      { result := .response 200, store := store2, events := evs,
        logs := logs ++ [.fulfillOrInvoiceFailed cart.id cause] }
    | none =>
      { result := .response 200, store := store2,
        events := evs ++ [{ action := .CART_FULFILLED, cart := some cart.id,
                            gateway := "payfort", context := .empty }],
        logs := logs ++ [.fulfilled cart.id] }

/-- `views.py` lines 182-219: the settlement attempt inside
`transaction.atomic()`.  The keyword arguments are built from `data[...]`
subscripts, so a missing key raises `KeyError` inside the `try` and is caught
by the broad `except Exception` (only `acquirer_response_message` can actually
be missing after format validation); the rolled-back audit context itself
subscripts `data['fort_id']`, which format validation guarantees. -/
def feedbackSettle (env : Collaborators) (store : Store) (p : Payload) (cart : Cart)
    (siteId : Nat) (evs : List AuditEvent) : FeedbackOutput :=
  let logs0 : List LogEvent := [.recordingTransaction cart.id]
  match getField p "response_message", getField p "fort_id", getField p "payment_option",
        getField p "amount", getField p "currency", getField p "acquirer_response_message" with
  | some rm, some fid, some _po, some am, some _cur, some _arm =>
    match handlePayment env store cart rm fid am with
    | .duplicateTransaction =>
      { result := .response 200, store := store,
        events := evs ++ [{ action := .DUPLICATE_TRANSACTION, cart := some cart.id,
                            gateway := "payfort",
                            context := .duplicate fid cart.status }],
        logs := logs0 }
    | .otherError cause =>
      { result := .response 200, store := store,
        events := evs ++ [{ action := .TRANSACTION_ROLLED_BACK, cart := some cart.id,
                            gateway := "payfort",
                            context := .rolledBack fid cart.id siteId }],
        logs := logs0 ++ [.settlementRolledBack cart.id cause] }
    | .ok store1 => feedbackFulfill env store1 cart fid evs logs0
  | _, _, _, _, _, _ =>
    match getField p "fort_id" with
    | some fid =>
      { result := .response 200, store := store,
        events := evs ++ [{ action := .TRANSACTION_ROLLED_BACK, cart := some cart.id,
                            gateway := "payfort",
                            context := .rolledBack fid cart.id siteId }],
        logs := logs0 ++ [.settlementRolledBack cart.id "KeyError"] }
    | none =>
      { result := .unhandledException "KeyError", store := store, events := evs,
        logs := logs0 }

/-- `PayfortFeedbackView.post` (`views.py` lines 133-234) after resolution,
translated branch by branch: return 400 when the cart or site is
unresolvable, verify the signature (400 + audit on mismatch), ignore
non-success statuses (200), validate the response format (an exception here
escapes the handler), reject carts not in `Processing` (audit + 200), then
settle and fulfill.  `evs0` holds the audit events already emitted (the
resolution events and the received event). -/
def feedbackDispatch (cfg : PayFortConfig) (env : Collaborators) (store : Store) (p : Payload)
    (cOpt : Option Cart) (siteOpt : Option Nat) (evs0 : List AuditEvent) : FeedbackOutput :=
  match cOpt with
  | none =>
    { result := .response 400, store := store, events := evs0,
      logs := [.unresolvedReference] }
  | some cart =>
    match siteOpt with
    | none =>
      { result := .response 400, store := store, events := evs0,
        logs := [.unresolvedReference] }
    | some siteId =>
      if getField p "signature" = some (getSignature cfg.hashHex cfg.responseShaPhrase p) then
        if getField p "status" ≠ some SUCCESS_STATUS then
          { result := .response 200, store := store, events := evs0,
            logs := [.unsuccessfulPayment (getField p "status")] }
        else
          match verifyResponseFormat p with
          | .error msg =>
            { result := .unhandledException msg, store := store, events := evs0,
              logs := [] }
          | .ok _ =>
            if cart.status ≠ Cart.Status.PROCESSING then
              { result := .response 200, store := store,
                events := evs0 ++
                  [{ action := .RESPONSE_INVALID_CART, cart := some cart.id,
                     gateway := "payfort",
                     context := .invalidCart cart.status Cart.Status.PROCESSING }],
                logs := [.invalidCartStatus cart.id cart.status] }
            else
              feedbackSettle env store p cart siteId evs0
      else
        { result := .response 400, store := store,
          events := evs0 ++
            [{ action := .BAD_RESPONSE_SIGNATURE, cart := some cart.id,
               gateway := "payfort", context := .payloadData p }],
          logs := [.badSignatureReceived] }

/-- `PayfortFeedbackView.post` assembled: resolve the cart (whose property
evaluation is what emits resolution audit events, once inside the
`AuditLog.log` call arguments and once at the `if not self.cart or not
self.site` guard), record the received event between those two evaluations,
and dispatch. -/
def feedbackPost (cfg : PayFortConfig) (env : Collaborators) (store : Store) (p : Payload) :
    FeedbackOutput :=
  feedbackDispatch cfg env store p (cartProperty store.carts p).1 (siteProperty store.siteIds p)
    ((cartProperty store.carts p).2 ++ [receivedEvent (cartProperty store.carts p).1 p]
      ++ (cartProperty store.carts p).2)

/-- What `PayFortReturnView.post` renders: the generic error page or the
polling wait page carrying the payload plus the `ecommerce_*` context keys
(`views.py` lines 107-119).  Both are `render(...)` calls — HTTP 200. -/
inductive ReturnPage
  | paymentError
  | waitFeedback (data : Payload) (transactionId statusUrl errorUrl successUrl : String)
      (maxAttempts waitTime : Nat)
deriving DecidableEq, Repr

/-- The transport-level outcome of the redirect-callback handler. -/
inductive ReturnResult
  | page (pg : ReturnPage)
  | unhandledException (message : String)
deriving DecidableEq, Repr

structure ReturnOutput where
  result : ReturnResult
  events : List AuditEvent
  logs : List LogEvent
deriving DecidableEq, Repr

def PayFortReturnView.MAX_ATTEMPTS : Nat := 24

def PayFortReturnView.WAIT_TIME : Nat := 5000

/-- `PayFortReturnView.post` (`views.py` lines 81-125): verify the signature
(on mismatch, audit with the full payload — the `cart=self.cart` argument
evaluates the resolving property — and render the error page); on success
status, validate the format (error page on failure) and render the wait page
with polling metadata; on any other status, log and render the error page.
The view never mutates the store. -/
def returnPost (cfg : PayFortConfig) (store : Store) (p : Payload) : ReturnOutput :=
  if getField p "signature" = some (getSignature cfg.hashHex cfg.responseShaPhrase p) then
    if getField p "status" = some SUCCESS_STATUS then
      match verifyResponseFormat p with
      | .error msg =>
        { result := .page .paymentError, events := [],
          logs := [.formatValidationFailed msg] }
      | .ok _ =>
        match getField p "fort_id" with
        | some fid =>
          { result := .page (.waitFeedback p fid cfg.statusUrl (cfg.errorUrlOf fid)
              (cfg.successUrlOf fid) PayFortReturnView.MAX_ATTEMPTS PayFortReturnView.WAIT_TIME),
            events := [], logs := [] }
        | none =>
          { result := .unhandledException "KeyError", events := [], logs := [] }
    else
      { result := .page .paymentError, events := [],
        logs := [.paymentFailed (getField p "merchant_reference") (getField p "status")
          (getField p "response_code")] }
  else
    { result := .page .paymentError,
      events := (cartProperty store.carts p).2 ++
        [{ action := .BAD_RESPONSE_SIGNATURE,
           cart := ((cartProperty store.carts p).1).map (fun c => c.id),
           gateway := "payfort", context := .payloadData p }],
      logs := [.badSignatureReceived] }

/-- The query-string parameters of the status poll. -/
structure StatusQuery where
  transactionId : Option String
  merchantReference : Option String
deriving DecidableEq, Repr

/-- A `JsonResponse` body: either `{error: <message>}` or
`{invoice: <number>, invoice_url: <url>}`. -/
inductive JsonBody
  | errorBody (message : String)
  | invoiceBody (invoice : String) (invoiceUrl : String)
deriving DecidableEq, Repr

structure JsonResp where
  statusCode : Nat
  body : JsonBody
deriving DecidableEq, Repr

structure StatusOutput where
  response : JsonResp
  events : List AuditEvent
  logs : List LogEvent
deriving DecidableEq, Repr

/-- Python `str.title()`: uppercase a letter that follows a non-letter,
lowercase the others. -/
def titleChars : Bool → List Char → List Char
  | _, [] => []
  | prevAlpha, c :: rest =>
    (if prevAlpha then c.toLower else c.toUpper) :: titleChars c.isAlpha rest

def pythonTitle (s : String) : String :=
  String.mk (titleChars false s.data)

def underscoreToSpace (s : String) : String :=
  String.mk (s.data.map (fun c => if c = '_' then ' ' else c))

/-- The `missing_fields` list comprehension of `PayFortStatusView.get`
(`views.py` line 248): parameter names whose value is falsy, in dict order. -/
def statusMissingFields (q : StatusQuery) : List String :=
  (if q.transactionId.getD "" = "" then ["transaction_id"] else []) ++
  (if q.merchantReference.getD "" = "" then ["merchant_reference"] else [])

/-- `', '.join(missing_fields).replace('_', ' ').title()`. -/
def missingFieldNames (missing : List String) : String :=
  pythonTitle (underscoreToSpace (String.intercalate ", " missing))

/-- The cart resolution of the status view (`views.py` lines 257-259):
`merchant_reference.split('-', 1)` then `PayFort().get_cart(cart_id)`. -/
def resolveCartByReference (carts : List Cart) (ref : String) : Option Cart :=
  match splitReference ref with
  | none => none
  | some (_, cartIdStr) => (parseId cartIdStr).bind (findCart carts)

/-- The invoice filter of the status view (`views.py` lines 278-281): a paid
invoice of this cart whose related transaction has the given gateway
transaction id. -/
def findPaidInvoice (invoices : List InvoiceRec) (cartId : Nat) (transactionId : String) :
    Option InvoiceRec :=
  invoices.find? (fun inv =>
    inv.cartId == cartId && inv.status == Invoice.Status.PAID &&
    inv.relatedTransactionGatewayId == some transactionId)

/-- `PayFortStatusView.get` (`views.py` lines 242-302), translated branch by
branch: 400 with an error body when a query parameter is falsy; 404 with an
error body (plus the invalid-cart audit event) when the reference does not
resolve; otherwise the status code is looked up in `{PAID: 200, PROCESSING:
204}` with default 404, and in the 200 case the paid invoice matching the
transaction id is fetched, downgrading to 204 when absent. -/
def jsonResp (statusCode : Nat) (body : JsonBody) : JsonResp :=
  { statusCode := statusCode, body := body }

def statusGet (cfg : PayFortConfig) (store : Store) (q : StatusQuery) : StatusOutput :=
  let missing := statusMissingFields q
  if missing ≠ [] then
    let fieldNames := missingFieldNames missing
    { response := jsonResp 400
        (.errorBody (fieldNames ++ " is required to verify payment status.")),
      events := [], logs := [.statusParamsMissing fieldNames] }
  else
    let ref := q.merchantReference.getD ""
    match resolveCartByReference store.carts ref with
    | none =>
      { response := jsonResp 404
          (.errorBody ("merchant_reference: " ++ ref ++
            " is invalid. Unable to retrieve cart.")),
        events := [invalidCartNoneEvent], logs := [] }
    | some cart =>
      let statusCode0 : Nat :=
        if cart.status = Cart.Status.PAID then 200
        else if cart.status = Cart.Status.PROCESSING then 204
        else 404
      if statusCode0 = 200 then
        match findPaidInvoice store.invoices cart.id (q.transactionId.getD "") with
        | some inv =>
          { response := jsonResp 200
              (.invoiceBody inv.invoiceNumber (cfg.invoiceUrlOf inv.invoiceNumber)),
            events := [], logs := [] }
        | none =>
          { response := jsonResp 204
              (.errorBody ("Cart is in " ++ Cart.Status.PAID ++
                " status, unable to retrieve invoice with given transaction id.")),
            events := [], logs := [.statusPaidNoInvoice] }
      else
        { response := jsonResp statusCode0
            (.errorBody ("cart is in status: " ++ cart.status ++ ".")),
          events := [], logs := [] }

/-- An incoming GET request to the status endpoint, with the session's
authentication state. -/
structure StatusRequest where
  isAuthenticated : Bool
  query : StatusQuery
deriving DecidableEq, Repr

/-- The `permission_classes` attribute declared on `PayFortStatusView`
(`views.py` line 240). -/
def PayFortStatusView.permission_classes : List String := ["IsAuthenticated"]

/-- `PayFortStatusView` as actually dispatched: the class is a plain
`django.views.View`, whose `dispatch` routes every request straight to `get`
and never consults the DRF-only `permission_classes` attribute, so the
handler runs for authenticated and unauthenticated callers alike. -/
def statusViewDispatch (cfg : PayFortConfig) (store : Store) (req : StatusRequest) :
    StatusOutput :=
  statusGet cfg store req.query

/-
Concrete fixtures used by the witnesses and counterexamples below.  The
digest is instantiated with a constant function: the handlers only compare
the digest output against the payload's signature field, so a constant digest
exercises the same control flow with kernel-computable values.
-/

def testHash : String → String := fun _ => "sig"

def testConfig : PayFortConfig :=
  { responseShaPhrase := "resp", hashHex := testHash,
    statusUrl := "/payfort/status/",
    errorUrlOf := fun fid => "/payment-error/" ++ fid,
    successUrlOf := fun fid => "/payment-success/" ++ fid,
    invoiceUrlOf := fun num => "/invoice/" ++ num }

/-- A payload that passes signature verification under `testConfig`, carries
the success status, and passes format validation; its reference resolves to
cart 1 on site 1. -/
def testPayload : Payload :=
  [("merchant_reference", "1-1"), ("fort_id", "F1"), ("status", "14"),
   ("response_message", "Success"), ("payment_option", "VISA"),
   ("amount", "150"), ("currency", "SAR"),
   ("acquirer_response_message", "Success"), ("signature", "sig")]

def testCart : Cart := { id := 1, status := Cart.Status.PROCESSING }

def testStore : Store :=
  { carts := [testCart], siteIds := [1], transactions := [], invoices := [] }

/-
Helper lemmas about the store operations.
-/

theorem findCart_id {carts : List Cart} {cid : Nat} {cart : Cart}
    (h : findCart carts cid = some cart) : cart.id = cid := by
  have hp := List.find?_some h
  simpa using hp

theorem findCart_markPaid : ∀ {carts : List Cart} {cid : Nat} {cart : Cart},
    findCart carts cid = some cart →
    findCart (markPaid carts cid) cid = some { cart with status := Cart.Status.PAID }
  | [], _, _, h => by simp [findCart] at h
  | a :: rest, cid, cart, h => by
    unfold findCart at h
    unfold findCart markPaid
    rw [List.map_cons]
    cases hb : (a.id == cid) with
    | true =>
      rw [List.find?_cons_of_pos _ (by simpa using hb)] at h
      have hacart : a = cart := Option.some.inj h
      subst hacart
      simp only [hb, if_true]
      rw [List.find?_cons_of_pos]
      simpa using hb
    | false =>
      rw [List.find?_cons_of_neg _ (by simp [hb])] at h
      have ih := findCart_markPaid h
      simp only [hb, Bool.false_eq_true, if_false]
      rw [List.find?_cons_of_neg _ (by simp [hb])]
      unfold findCart markPaid at ih
      exact ih

/-- Every audit event emitted by the resolving `cart` property is the
invalid-cart event. -/
theorem cartProperty_events_all (carts : List Cart) (p : Payload) :
    ((cartProperty carts p).2).all
      (fun e => e.action == AuditAction.RESPONSE_INVALID_CART) = true := by
  unfold cartProperty
  split
  · rfl
  · split
    · rfl
    · split
      · rfl
      · rfl

theorem feedbackFulfill_events (env : Collaborators) (store1 : Store) (cart : Cart)
    (tid : String) (evs : List AuditEvent) (logs : List LogEvent) :
    ∃ tail, (feedbackFulfill env store1 cart tid evs logs).events = evs ++ tail := by
  unfold feedbackFulfill
  cases h : env.invoiceFault with
  | some c => exact ⟨[], (List.append_nil evs).symm⟩
  | none =>
    cases h2 : env.fulfillmentFault with
    | some c => exact ⟨[], (List.append_nil evs).symm⟩
    | none => exact ⟨_, rfl⟩

theorem feedbackSettle_events (env : Collaborators) (store : Store) (p : Payload)
    (cart : Cart) (siteId : Nat) (evs : List AuditEvent) :
    ∃ tail, (feedbackSettle env store p cart siteId evs).events = evs ++ tail := by
  unfold feedbackSettle
  split
  · split
    · exact ⟨_, rfl⟩
    · exact ⟨_, rfl⟩
    · exact feedbackFulfill_events _ _ _ _ _ _
  · split
    · exact ⟨_, rfl⟩
    · exact ⟨[], (List.append_nil evs).symm⟩

theorem feedbackDispatch_events (cfg : PayFortConfig) (env : Collaborators) (store : Store)
    (p : Payload) (cOpt : Option Cart) (siteOpt : Option Nat) (evs0 : List AuditEvent) :
    ∃ tail, (feedbackDispatch cfg env store p cOpt siteOpt evs0).events = evs0 ++ tail := by
  cases cOpt with
  | none => exact ⟨[], (List.append_nil evs0).symm⟩
  | some cart =>
    cases siteOpt with
    | none => exact ⟨[], (List.append_nil evs0).symm⟩
    | some siteId =>
      unfold feedbackDispatch
      dsimp only
      split
      · split
        · exact ⟨[], (List.append_nil evs0).symm⟩
        · split
          · exact ⟨[], (List.append_nil evs0).symm⟩
          · split
            · exact ⟨_, rfl⟩
            · exact feedbackSettle_events _ _ _ _ _ _
      · exact ⟨_, rfl⟩

/-
Claim C5.
-/

/-- Claim C5 (amended): the signature produced by the codec is the configured
digest of `secret || concatenation || secret`, where the concatenation lists
`key=value` for every field except the signature field, sorted by full
case-insensitive key comparison; the signature is deterministic and invariant
under permutation of the field-map's insertion order provided no two distinct
field names are case-insensitively equal (for Python dict keys that collide
only in case, the stable sort preserves insertion order among them and the
signature can depend on it). -/
theorem getSignature_canonical_and_order_independent
    (hashHex : String → String) (secret : String) (l₁ l₂ : Payload)
    (hperm : l₁.Perm l₂)
    (hnd : (l₁.map (fun e => lowerKey e.1)).Nodup) :
    getSignature hashHex secret l₁
        = hashHex (secret ++ concatPairs (sortFields (stripSignatureField l₁)) ++ secret)
      ∧ getSignature hashHex secret l₁ = getSignature hashHex secret l₂ := by
  refine ⟨rfl, ?_⟩
  unfold getSignature
  have hfperm : (stripSignatureField l₁).Perm (stripSignatureField l₂) := by
    unfold stripSignatureField
    exact hperm.filter _
  have hfnd : ((stripSignatureField l₁).map (fun e => lowerKey e.1)).Nodup := by
    unfold stripSignatureField
    exact List.Nodup.sublist ((List.filter_sublist l₁).map (fun e => lowerKey e.1)) hnd
  rw [sortFields_eq_of_perm hfperm hfnd]

/-- Witness for C5: two insertion orders of the same two (case-insensitively
distinct) fields produce the same signature. -/
theorem getSignature_canonical_and_order_independent_witness :
    getSignature (fun s => s) "p" [("b", "2"), ("a", "1")]
      = getSignature (fun s => s) "p" [("a", "1"), ("b", "2")] :=
  (getSignature_canonical_and_order_independent (fun s => s) "p"
    [("b", "2"), ("a", "1")] [("a", "1"), ("b", "2")]
    (by decide) (by decide)).2

/-- Counterexample for C5 as frozen: with two field names that differ only in
case, the stable sort keeps insertion order among them, so permuting the
insertion order changes the canonical string and hence the signature. -/
theorem getSignature_case_collision_not_order_independent :
    ([("A", "0"), ("a", "1")] : Payload).Perm [("a", "1"), ("A", "0")]
      ∧ getSignature (fun s => s) "p" [("A", "0"), ("a", "1")]
          ≠ getSignature (fun s => s) "p" [("a", "1"), ("A", "0")] := by
  constructor
  · decide
  · decide

/-
Claim C8.
-/

/-- Spec-side restatement of the status-poll contract, written from the claim
text: 400 with an error body when `transaction_id` or `merchant_reference` is
missing; 404 with an error body when the reference does not resolve to a cart
or the cart's status is neither Paid nor Processing; 200 with
`{invoice, invoice_url}` when the cart is Paid and a paid invoice matching the
transaction id exists; 204 when the cart is Paid without such an invoice or
still Processing. -/
def statusSpecResponse (cfg : PayFortConfig) (store : Store) (q : StatusQuery) : JsonResp :=
  if statusMissingFields q ≠ [] then
    jsonResp 400 (.errorBody (missingFieldNames (statusMissingFields q) ++
      " is required to verify payment status."))
  else
    match resolveCartByReference store.carts (q.merchantReference.getD "") with
    | none =>
      jsonResp 404 (.errorBody ("merchant_reference: " ++ q.merchantReference.getD "" ++
        " is invalid. Unable to retrieve cart."))
    | some cart =>
      if cart.status = Cart.Status.PAID then
        match findPaidInvoice store.invoices cart.id (q.transactionId.getD "") with
        | some inv =>
          jsonResp 200 (.invoiceBody inv.invoiceNumber (cfg.invoiceUrlOf inv.invoiceNumber))
        | none =>
          jsonResp 204 (.errorBody ("Cart is in " ++ Cart.Status.PAID ++
            " status, unable to retrieve invoice with given transaction id."))
      else if cart.status = Cart.Status.PROCESSING then
        jsonResp 204 (.errorBody ("cart is in status: " ++ cart.status ++ "."))
      else
        jsonResp 404 (.errorBody ("cart is in status: " ++ cart.status ++ "."))

/-- Claim C8 (confirmed): for every GET to the status-poll endpoint, the
response agrees with the spec-side case analysis: 400 `{error}` on a missing
query parameter; 404 `{error}` on an unresolvable reference or an
unrecognized cart status; 200 `{invoice, invoice_url}` for a Paid cart with a
matching paid invoice; 204 for a Paid cart without one or a Processing
cart. -/
theorem statusGet_meets_spec (cfg : PayFortConfig) (store : Store) (q : StatusQuery) :
    (statusGet cfg store q).response = statusSpecResponse cfg store q := by
  simp only [statusGet, statusSpecResponse]
  by_cases hm : statusMissingFields q ≠ []
  · rw [if_pos hm, if_pos hm]
  · rw [if_neg hm, if_neg hm]
    cases hres : resolveCartByReference store.carts (q.merchantReference.getD "") with
    | none => rfl
    | some cart =>
      dsimp only
      by_cases hp : cart.status = Cart.Status.PAID
      · rw [if_pos hp, if_pos (rfl : (200 : Nat) = 200), if_pos hp]
        cases hinv : findPaidInvoice store.invoices cart.id (q.transactionId.getD "") with
        | some inv => rfl
        | none => rfl
      · rw [if_neg hp, if_neg hp]
        by_cases hpr : cart.status = Cart.Status.PROCESSING
        · rw [if_pos hpr, if_neg (by decide : ¬((204 : Nat) = 200)), if_pos hpr]
        · rw [if_neg hpr, if_neg (by decide : ¬((404 : Nat) = 200)), if_neg hpr]

/-
Claim C9.
-/

/-- Claim C9 (code_bug evidence): `PayFortStatusView` declares
`permission_classes = [IsAuthenticated]`, but as a plain `django.views.View`
the attribute is never enforced, so the handler's output is independent of
the caller's authentication state; in particular the unauthenticated GET with
no query parameters is processed as a status query and receives the
400 missing-parameters response — exactly what the repository's own
`test_unauthorized` asserts. -/
theorem statusView_ignores_authentication :
    (∀ (cfg : PayFortConfig) (store : Store) (q : StatusQuery) (a b : Bool),
        statusViewDispatch cfg store { isAuthenticated := a, query := q }
          = statusViewDispatch cfg store { isAuthenticated := b, query := q })
    ∧ (statusViewDispatch testConfig testStore
          { isAuthenticated := false, query := { transactionId := none, merchantReference := none } }).response
        = jsonResp 400 (.errorBody
            "Transaction Id, Merchant Reference is required to verify payment status.") := by
  refine ⟨fun cfg store q a b => rfl, ?_⟩
  decide

/-
Claim C10.
-/

/-- Claim C10 (confirmed): on every POST to the webhook, the
`RECEIVED_RESPONSE` audit event carrying the full raw payload is recorded
before signature verification, the status check, the order-state guard and
settlement: the handler's audit trail is always the resolution-property
events (all of which are `RESPONSE_INVALID_CART`), then the received event,
then whatever the later stages emit — including requests whose merchant
reference is unresolvable and that end with HTTP 400. -/
theorem feedback_audits_received_before_processing (cfg : PayFortConfig)
    (env : Collaborators) (store : Store) (p : Payload) :
    ∃ post, (feedbackPost cfg env store p).events
        = (cartProperty store.carts p).2
            ++ receivedEvent (cartProperty store.carts p).1 p :: post
      ∧ ((cartProperty store.carts p).2).all
          (fun e => e.action == AuditAction.RESPONSE_INVALID_CART) = true := by
  have hall := cartProperty_events_all store.carts p
  have hshape := feedbackDispatch_events cfg env store p (cartProperty store.carts p).1
    (siteProperty store.siteIds p)
    ((cartProperty store.carts p).2 ++ [receivedEvent (cartProperty store.carts p).1 p]
      ++ (cartProperty store.carts p).2)
  obtain ⟨tail, htail⟩ := hshape
  refine ⟨(cartProperty store.carts p).2 ++ tail, ?_, hall⟩
  show (feedbackDispatch cfg env store p (cartProperty store.carts p).1
      (siteProperty store.siteIds p)
      ((cartProperty store.carts p).2 ++ [receivedEvent (cartProperty store.carts p).1 p]
        ++ (cartProperty store.carts p).2)).events = _
  rw [htail]
  simp [List.append_assoc]

/-
Claim C2.
-/

/-- Claim C2 (confirmed): for every webhook request that reaches settlement,
an unexpected failure (other than a duplicate-transaction conflict) inside
the atomic scope rolls the whole scope back — the store is unchanged, so no
transaction record is persisted and the order status is not flipped — a
`TRANSACTION_ROLLED_BACK` audit event carrying the cart and site identifiers
is recorded, and the handler still returns HTTP 200. -/
theorem feedback_settlement_failure_rolls_back (cfg : PayFortConfig) (env : Collaborators)
    (store : Store) (p : Payload) (cart : Cart) (siteId : Nat)
    (ref sStr cStr : String) (cid : Nat) (fid rm po am cur arm cause : String)
    (href : getNonEmpty p "merchant_reference" = some ref)
    (hsplit : splitReference ref = some (sStr, cStr))
    (hparse : parseId cStr = some cid)
    (hfind : findCart store.carts cid = some cart)
    (hsite : siteProperty store.siteIds p = some siteId)
    (hsig : getField p "signature" = some (getSignature cfg.hashHex cfg.responseShaPhrase p))
    (hstatus : getField p "status" = some SUCCESS_STATUS)
    (hfmt : verifyResponseFormat p = .ok ())
    (hproc : cart.status = Cart.Status.PROCESSING)
    (hrm : getField p "response_message" = some rm)
    (hfid : getField p "fort_id" = some fid)
    (hpo : getField p "payment_option" = some po)
    (ham : getField p "amount" = some am)
    (hcur : getField p "currency" = some cur)
    (harm : getField p "acquirer_response_message" = some arm)
    (hdup : store.transactions.any (isDuplicateTxn fid) = false)
    (hfault : env.settlementFault = some cause) :
    (feedbackPost cfg env store p).result = .response 200
      ∧ (feedbackPost cfg env store p).store = store
      ∧ { action := .TRANSACTION_ROLLED_BACK, cart := some cart.id,
          gateway := "payfort",
          context := .rolledBack fid cart.id siteId : AuditEvent }
          ∈ (feedbackPost cfg env store p).events := by
  have hcart : cartProperty store.carts p = (some cart, []) := by
    simp only [cartProperty, href, hsplit, hparse, Option.some_bind, hfind]
  have hmain : feedbackPost cfg env store p =
      feedbackDispatch cfg env store p (some cart) (some siteId)
        [receivedEvent (some cart) p] := by
    unfold feedbackPost
    rw [hcart, hsite]
    rfl
  rw [hmain]
  unfold feedbackDispatch
  dsimp only
  rw [if_pos hsig, if_neg (not_not_intro hstatus), hfmt]
  dsimp only
  rw [if_neg (not_not_intro hproc)]
  unfold feedbackSettle
  rw [hrm, hfid, hpo, ham, hcur, harm]
  dsimp only
  unfold handlePayment
  rw [if_neg (show ¬(store.transactions.any (isDuplicateTxn fid) = true) from
    fun h => by rw [hdup] at h; exact Bool.noConfusion h)]
  rw [hfault]
  dsimp only
  refine ⟨rfl, rfl, ?_⟩
  simp

/-- Witness for C2: a concrete request whose settlement collaborator fails
with an unexpected error. -/
theorem feedback_settlement_failure_rolls_back_witness :
    (feedbackPost testConfig ⟨some "boom", none, none⟩ testStore testPayload).result
        = .response 200
      ∧ (feedbackPost testConfig ⟨some "boom", none, none⟩ testStore testPayload).store
        = testStore
      ∧ { action := .TRANSACTION_ROLLED_BACK, cart := some testCart.id,
          gateway := "payfort",
          context := .rolledBack "F1" testCart.id 1 : AuditEvent }
          ∈ (feedbackPost testConfig ⟨some "boom", none, none⟩ testStore testPayload).events :=
  feedback_settlement_failure_rolls_back testConfig ⟨some "boom", none, none⟩ testStore
    testPayload testCart 1 "1-1" "1" "1" 1 "F1" "Success" "VISA" "150" "SAR" "Success" "boom"
    (by decide) (by decide) (by decide) (by decide) (by decide) (by decide) (by decide)
    (by rfl) (by rfl) (by decide) (by decide) (by decide) (by decide) (by decide) (by decide)
    (by rfl) (by rfl)

/-
Claim C4.
-/

/-- Claim C4 (confirmed): when the atomic settlement commits but the
subsequent invoice creation or fulfillment fails, the handler returns HTTP
200, the order remains Paid and the transaction record remains persisted (no
rollback of the settlement), and the failure is logged with the cart id and
the underlying cause. -/
theorem feedback_fulfillment_failure_preserves_settlement (cfg : PayFortConfig)
    (env : Collaborators) (store : Store) (p : Payload) (cart : Cart) (siteId : Nat)
    (ref sStr cStr : String) (cid : Nat) (fid rm po am cur arm cause : String)
    (href : getNonEmpty p "merchant_reference" = some ref)
    (hsplit : splitReference ref = some (sStr, cStr))
    (hparse : parseId cStr = some cid)
    (hfind : findCart store.carts cid = some cart)
    (hsite : siteProperty store.siteIds p = some siteId)
    (hsig : getField p "signature" = some (getSignature cfg.hashHex cfg.responseShaPhrase p))
    (hstatus : getField p "status" = some SUCCESS_STATUS)
    (hfmt : verifyResponseFormat p = .ok ())
    (hproc : cart.status = Cart.Status.PROCESSING)
    (hrm : getField p "response_message" = some rm)
    (hfid : getField p "fort_id" = some fid)
    (hpo : getField p "payment_option" = some po)
    (ham : getField p "amount" = some am)
    (hcur : getField p "currency" = some cur)
    (harm : getField p "acquirer_response_message" = some arm)
    (hdup : store.transactions.any (isDuplicateTxn fid) = false)
    (hsf : env.settlementFault = none)
    (hff : env.invoiceFault = some cause
      ∨ (env.invoiceFault = none ∧ env.fulfillmentFault = some cause)) :
    (feedbackPost cfg env store p).result = .response 200
      ∧ (feedbackPost cfg env store p).store.carts = markPaid store.carts cart.id
      ∧ (feedbackPost cfg env store p).store.transactions = store.transactions ++
          [{ gateway := "payfort", cartId := some cart.id, gatewayTransactionId := fid,
             status := rm, amount := am }]
      ∧ LogEvent.fulfillOrInvoiceFailed cart.id cause ∈ (feedbackPost cfg env store p).logs := by
  have hcart : cartProperty store.carts p = (some cart, []) := by
    simp only [cartProperty, href, hsplit, hparse, Option.some_bind, hfind]
  have hmain : feedbackPost cfg env store p =
      feedbackDispatch cfg env store p (some cart) (some siteId)
        [receivedEvent (some cart) p] := by
    unfold feedbackPost
    rw [hcart, hsite]
    rfl
  rw [hmain]
  unfold feedbackDispatch
  dsimp only
  rw [if_pos hsig, if_neg (not_not_intro hstatus), hfmt]
  dsimp only
  rw [if_neg (not_not_intro hproc)]
  unfold feedbackSettle
  rw [hrm, hfid, hpo, ham, hcur, harm]
  dsimp only
  unfold handlePayment
  rw [if_neg (show ¬(store.transactions.any (isDuplicateTxn fid) = true) from
    fun h => by rw [hdup] at h; exact Bool.noConfusion h)]
  rw [hsf]
  dsimp only
  unfold feedbackFulfill
  rcases hff with hi | ⟨hi, hf⟩
  · rw [hi]
    dsimp only
    exact ⟨rfl, rfl, rfl, by simp⟩
  · rw [hi]
    dsimp only
    rw [hf]
    dsimp only
    exact ⟨rfl, rfl, rfl, by simp⟩

/-- Witness for C4: a concrete request whose fulfillment collaborator fails
after the settlement commit. -/
theorem feedback_fulfillment_failure_preserves_settlement_witness :
    (feedbackPost testConfig ⟨none, none, some "enroll failed"⟩ testStore testPayload).result
        = .response 200
      ∧ (feedbackPost testConfig ⟨none, none, some "enroll failed"⟩ testStore
          testPayload).store.carts = markPaid testStore.carts testCart.id
      ∧ (feedbackPost testConfig ⟨none, none, some "enroll failed"⟩ testStore
          testPayload).store.transactions = testStore.transactions ++
          [{ gateway := "payfort", cartId := some testCart.id, gatewayTransactionId := "F1",
             status := "Success", amount := "150" }]
      ∧ LogEvent.fulfillOrInvoiceFailed testCart.id "enroll failed"
          ∈ (feedbackPost testConfig ⟨none, none, some "enroll failed"⟩ testStore
              testPayload).logs :=
  feedback_fulfillment_failure_preserves_settlement testConfig
    ⟨none, none, some "enroll failed"⟩ testStore testPayload testCart 1
    "1-1" "1" "1" 1 "F1" "Success" "VISA" "150" "SAR" "Success" "enroll failed"
    (by decide) (by decide) (by decide) (by decide) (by decide) (by decide) (by decide)
    (by rfl) (by rfl) (by decide) (by decide) (by decide) (by decide) (by decide) (by decide)
    (by rfl) (by rfl) (Or.inr ⟨rfl, rfl⟩)

/-
Claims C7 and C6.
-/

/-- `testPayload` with the mandatory `currency` field removed: it still
passes signature verification under `testConfig` and carries the success
status, but fails response-format validation. -/
def noCurrencyPayload : Payload :=
  [("merchant_reference", "1-1"), ("fort_id", "F1"), ("status", "14"),
   ("response_message", "Success"), ("payment_option", "VISA"),
   ("amount", "150"), ("acquirer_response_message", "Success"), ("signature", "sig")]

/-- `testPayload` with a wrong signature value. -/
def badSigPayload : Payload :=
  [("merchant_reference", "1-1"), ("fort_id", "F1"), ("status", "14"),
   ("response_message", "Success"), ("payment_option", "VISA"),
   ("amount", "150"), ("currency", "SAR"),
   ("acquirer_response_message", "Success"), ("signature", "invalid")]

/-- A store whose cart 1 is already Paid. -/
def paidStore : Store :=
  { carts := [{ id := 1, status := Cart.Status.PAID }], siteIds := [1],
    transactions := [], invoices := [] }

/-- Counterexample for C7 as frozen: a signature-valid success payload with a
missing mandatory field does not make the handler return HTTP 200 — the
`verify_response_format` call at `views.py` line 170 sits outside every
`try`, so the `PayFortException` escapes the handler unhandled. -/
theorem webhook_format_failure_not_200 :
    (feedbackPost testConfig noFaults testStore noCurrencyPayload).result
        = .unhandledException "PayFortException: mandatory field missing or empty: currency"
      ∧ (feedbackPost testConfig noFaults testStore noCurrencyPayload).result
          ≠ .response 200 := by
  constructor
  · decide
  · decide

/-- Claim C7 (amended): on the webhook path, a payload that passes signature
verification and carries the success status but fails response-format
validation makes the raised `PayFortException` propagate out of the handler
(no HTTP 200); the store is left untouched. -/
theorem webhook_format_failure_escapes (cfg : PayFortConfig) (env : Collaborators)
    (store : Store) (p : Payload) (cart : Cart) (siteId : Nat)
    (ref sStr cStr : String) (cid : Nat) (msg : String)
    (href : getNonEmpty p "merchant_reference" = some ref)
    (hsplit : splitReference ref = some (sStr, cStr))
    (hparse : parseId cStr = some cid)
    (hfind : findCart store.carts cid = some cart)
    (hsite : siteProperty store.siteIds p = some siteId)
    (hsig : getField p "signature" = some (getSignature cfg.hashHex cfg.responseShaPhrase p))
    (hstatus : getField p "status" = some SUCCESS_STATUS)
    (hfmt : verifyResponseFormat p = .error msg) :
    (feedbackPost cfg env store p).result = .unhandledException msg
      ∧ (feedbackPost cfg env store p).store = store := by
  have hcart : cartProperty store.carts p = (some cart, []) := by
    simp only [cartProperty, href, hsplit, hparse, Option.some_bind, hfind]
  have hmain : feedbackPost cfg env store p =
      feedbackDispatch cfg env store p (some cart) (some siteId)
        [receivedEvent (some cart) p] := by
    unfold feedbackPost
    rw [hcart, hsite]
    rfl
  rw [hmain]
  unfold feedbackDispatch
  dsimp only
  rw [if_pos hsig, if_neg (not_not_intro hstatus), hfmt]
  exact ⟨rfl, rfl⟩

/-- Witness for C7 (amended) at the concrete missing-currency payload. -/
theorem webhook_format_failure_escapes_witness :
    (feedbackPost testConfig noFaults testStore noCurrencyPayload).result
        = .unhandledException "PayFortException: mandatory field missing or empty: currency"
      ∧ (feedbackPost testConfig noFaults testStore noCurrencyPayload).store = testStore :=
  webhook_format_failure_escapes testConfig noFaults testStore noCurrencyPayload testCart 1
    "1-1" "1" "1" 1 "PayFortException: mandatory field missing or empty: currency"
    (by decide) (by decide) (by decide) (by decide) (by decide) (by decide) (by decide)
    (by rfl)

/-- Counterexample for C6 as frozen: on the webhook endpoint a bad signature
produces HTTP 400 — an HTTP error status — contradicting "the response is
not an HTTP error status" (the repository's own
`test_post_for_invalid_signature` asserts the 400). -/
theorem webhook_bad_signature_returns_400 :
    (feedbackPost testConfig noFaults testStore badSigPayload).result = .response 400
      ∧ (feedbackPost testConfig noFaults testStore badSigPayload).events.any
          (fun e => e.action == AuditAction.BAD_RESPONSE_SIGNATURE) = true := by
  constructor
  · decide
  · decide

/-- Claim C6 (amended): a bad signature is audited with the full raw payload
on both PSP-facing endpoints, but the transport outcome differs: the redirect
callback renders the generic error page (HTTP 200), while the webhook returns
HTTP 400 (when the merchant reference resolves; an unresolvable reference
already returns 400 before signature verification). -/
theorem bad_signature_always_audited (cfg : PayFortConfig) (env : Collaborators)
    (store : Store) (p : Payload) (cart : Cart) (siteId : Nat)
    (ref sStr cStr : String) (cid : Nat) (storeR : Store) (q : Payload)
    (href : getNonEmpty p "merchant_reference" = some ref)
    (hsplit : splitReference ref = some (sStr, cStr))
    (hparse : parseId cStr = some cid)
    (hfind : findCart store.carts cid = some cart)
    (hsite : siteProperty store.siteIds p = some siteId)
    (hbad : getField p "signature" ≠ some (getSignature cfg.hashHex cfg.responseShaPhrase p))
    (hbadq : getField q "signature" ≠ some (getSignature cfg.hashHex cfg.responseShaPhrase q)) :
    (feedbackPost cfg env store p).result = .response 400
      ∧ { action := .BAD_RESPONSE_SIGNATURE, cart := some cart.id,
          gateway := "payfort", context := .payloadData p : AuditEvent }
          ∈ (feedbackPost cfg env store p).events
      ∧ (returnPost cfg storeR q).result = .page .paymentError
      ∧ { action := .BAD_RESPONSE_SIGNATURE,
          cart := ((cartProperty storeR.carts q).1).map (fun c => c.id),
          gateway := "payfort", context := .payloadData q : AuditEvent }
          ∈ (returnPost cfg storeR q).events := by
  have hcart : cartProperty store.carts p = (some cart, []) := by
    simp only [cartProperty, href, hsplit, hparse, Option.some_bind, hfind]
  have hmain : feedbackPost cfg env store p =
      feedbackDispatch cfg env store p (some cart) (some siteId)
        [receivedEvent (some cart) p] := by
    unfold feedbackPost
    rw [hcart, hsite]
    rfl
  rw [hmain]
  unfold feedbackDispatch
  dsimp only
  rw [if_neg hbad]
  refine ⟨rfl, by simp, ?_, ?_⟩
  · unfold returnPost
    rw [if_neg hbadq]
  · unfold returnPost
    rw [if_neg hbadq]
    simp

/-- Witness for C6 (amended): the concrete bad-signature payload, on both
endpoints. -/
theorem bad_signature_always_audited_witness :
    (feedbackPost testConfig noFaults testStore badSigPayload).result = .response 400
      ∧ { action := .BAD_RESPONSE_SIGNATURE, cart := some testCart.id,
          gateway := "payfort", context := .payloadData badSigPayload : AuditEvent }
          ∈ (feedbackPost testConfig noFaults testStore badSigPayload).events
      ∧ (returnPost testConfig testStore badSigPayload).result = .page .paymentError
      ∧ { action := .BAD_RESPONSE_SIGNATURE,
          cart := ((cartProperty testStore.carts badSigPayload).1).map (fun c => c.id),
          gateway := "payfort", context := .payloadData badSigPayload : AuditEvent }
          ∈ (returnPost testConfig testStore badSigPayload).events :=
  bad_signature_always_audited testConfig noFaults testStore badSigPayload testCart 1
    "1-1" "1" "1" 1 testStore badSigPayload
    (by decide) (by decide) (by decide) (by decide) (by decide) (by decide) (by decide)

/-
Claim C3.
-/

/-- Counterexample for C3 as frozen: a webhook whose reference resolves to a
Paid (not Processing) cart but whose signature is invalid returns HTTP 400
with a `BAD_RESPONSE_SIGNATURE` audit — not HTTP 200 with a
`RESPONSE_INVALID_CART` audit — so the audit-and-200 part of the claim does
not hold "regardless of payload validity". -/
theorem feedback_state_guard_not_unconditional :
    (feedbackPost testConfig noFaults paidStore badSigPayload).result = .response 400
      ∧ (feedbackPost testConfig noFaults paidStore badSigPayload).events.any
          (fun e => e.action == AuditAction.RESPONSE_INVALID_CART) = false := by
  constructor
  · decide
  · decide

/-- Claim C3 (amended): a webhook resolving to a cart that is not in
`Processing` never mutates the store (no transaction record, no status
change), whatever the payload; when the payload additionally passes signature
verification, carries the success status and passes format validation, the
handler records a `RESPONSE_INVALID_CART` audit event and returns HTTP 200
(otherwise the earlier signature/status/format handling answers first). -/
theorem feedback_state_guard (cfg : PayFortConfig) (env envQ : Collaborators) (store : Store)
    (p q : Payload) (cart cartQ : Cart) (siteId siteIdQ : Nat)
    (ref sStr cStr refQ sStrQ cStrQ : String) (cid cidQ : Nat)
    (href : getNonEmpty p "merchant_reference" = some ref)
    (hsplit : splitReference ref = some (sStr, cStr))
    (hparse : parseId cStr = some cid)
    (hfind : findCart store.carts cid = some cart)
    (hsite : siteProperty store.siteIds p = some siteId)
    (hstat : cart.status ≠ Cart.Status.PROCESSING)
    (hrefQ : getNonEmpty q "merchant_reference" = some refQ)
    (hsplitQ : splitReference refQ = some (sStrQ, cStrQ))
    (hparseQ : parseId cStrQ = some cidQ)
    (hfindQ : findCart store.carts cidQ = some cartQ)
    (hsiteQ : siteProperty store.siteIds q = some siteIdQ)
    (hstatQ : cartQ.status ≠ Cart.Status.PROCESSING)
    (hsigQ : getField q "signature" = some (getSignature cfg.hashHex cfg.responseShaPhrase q))
    (hstatusQ : getField q "status" = some SUCCESS_STATUS)
    (hfmtQ : verifyResponseFormat q = .ok ()) :
    (feedbackPost cfg env store p).store = store
      ∧ (feedbackPost cfg envQ store q).result = .response 200
      ∧ { action := .RESPONSE_INVALID_CART, cart := some cartQ.id, gateway := "payfort",
          context := .invalidCart cartQ.status Cart.Status.PROCESSING : AuditEvent }
          ∈ (feedbackPost cfg envQ store q).events := by
  have hcart : cartProperty store.carts p = (some cart, []) := by
    simp only [cartProperty, href, hsplit, hparse, Option.some_bind, hfind]
  have hmain : feedbackPost cfg env store p =
      feedbackDispatch cfg env store p (some cart) (some siteId)
        [receivedEvent (some cart) p] := by
    unfold feedbackPost
    rw [hcart, hsite]
    rfl
  have hcartQ : cartProperty store.carts q = (some cartQ, []) := by
    simp only [cartProperty, hrefQ, hsplitQ, hparseQ, Option.some_bind, hfindQ]
  have hmainQ : feedbackPost cfg envQ store q =
      feedbackDispatch cfg envQ store q (some cartQ) (some siteIdQ)
        [receivedEvent (some cartQ) q] := by
    unfold feedbackPost
    rw [hcartQ, hsiteQ]
    rfl
  refine ⟨?_, ?_, ?_⟩
  · rw [hmain]
    unfold feedbackDispatch
    dsimp only
    by_cases hsig' : getField p "signature"
        = some (getSignature cfg.hashHex cfg.responseShaPhrase p)
    · rw [if_pos hsig']
      by_cases hst' : getField p "status" ≠ some SUCCESS_STATUS
      · rw [if_pos hst']
      · rw [if_neg hst']
        cases hfmt' : verifyResponseFormat p with
        | error m => rfl
        | ok u =>
          cases u
          rw [if_pos hstat]
    · rw [if_neg hsig']
  · rw [hmainQ]
    unfold feedbackDispatch
    dsimp only
    rw [if_pos hsigQ, if_neg (not_not_intro hstatusQ), hfmtQ]
    dsimp only
    rw [if_pos hstatQ]
  · rw [hmainQ]
    unfold feedbackDispatch
    dsimp only
    rw [if_pos hsigQ, if_neg (not_not_intro hstatusQ), hfmtQ]
    dsimp only
    rw [if_pos hstatQ]
    simp

/-- Witness for C3 (amended): the Paid cart with a bad-signature payload (the
frame part) and with a fully valid payload (the audit part). -/
theorem feedback_state_guard_witness :
    (feedbackPost testConfig noFaults paidStore badSigPayload).store = paidStore
      ∧ (feedbackPost testConfig noFaults paidStore testPayload).result = .response 200
      ∧ { action := .RESPONSE_INVALID_CART, cart := some (1 : Nat), gateway := "payfort",
          context := .invalidCart Cart.Status.PAID Cart.Status.PROCESSING : AuditEvent }
          ∈ (feedbackPost testConfig noFaults paidStore testPayload).events :=
  feedback_state_guard testConfig noFaults noFaults paidStore badSigPayload testPayload
    { id := 1, status := Cart.Status.PAID } { id := 1, status := Cart.Status.PAID } 1 1
    "1-1" "1" "1" "1-1" "1" "1" 1 1
    (by decide) (by decide) (by decide) (by decide) (by decide) (by decide)
    (by decide) (by decide) (by decide) (by decide) (by decide) (by decide)
    (by decide) (by decide) (by rfl)

/-
Claim C1.
-/

theorem filter_dup_append_singleton {l : List TransactionRec} {fid : String}
    (h : l.any (isDuplicateTxn fid) = false) (t : TransactionRec)
    (ht : isDuplicateTxn fid t = true) :
    ((l ++ [t]).filter (isDuplicateTxn fid)).length = 1 := by
  rw [List.filter_append]
  have hl : l.filter (isDuplicateTxn fid) = [] :=
    List.filter_eq_nil_iff.mpr (fun a ha => by
      have hfa := List.any_eq_false.mp h a ha
      simpa using hfa)
  rw [hl]
  simp [List.filter, ht]

/-- A store that already holds a settlement for `(payfort, F1)` while its
cart 1 is still Processing, as in the repository's
`test_post_success_for_duplicate_transaction`. -/
def dupStore : Store :=
  { carts := [testCart], siteIds := [1],
    transactions := [{ gateway := "payfort", cartId := some 1,
                       gatewayTransactionId := "F1", status := "Success",
                       amount := "100" }],
    invoices := [] }

/-- Counterexample for C1 as frozen: replaying the identical successful
payload leaves the duplicate `(gateway, psp_txn_id)` pair in place for the
second call, yet the second call records no `DuplicateTransaction` audit
event (it stops at the order-state guard, because the first call flipped the
cart to Paid); it returns HTTP 200. -/
theorem feedback_replay_no_duplicate_audit :
    (feedbackPost testConfig noFaults testStore
        testPayload).store.transactions.any (isDuplicateTxn "F1") = true
      ∧ (feedbackPost testConfig noFaults
          (feedbackPost testConfig noFaults testStore testPayload).store
          testPayload).events.all
          (fun e => !(e.action == AuditAction.DUPLICATE_TRANSACTION)) = true
      ∧ (feedbackPost testConfig noFaults
          (feedbackPost testConfig noFaults testStore testPayload).store
          testPayload).result = .response 200 := by
  refine ⟨?_, ?_, ?_⟩
  · decide
  · decide
  · decide

/-- Claim C1 (amended): submitting the identical successful webhook payload
twice yields exactly one transaction record and exactly one transition to
Paid; the second call returns HTTP 200 and leaves the store unchanged, but —
because the first call flipped the order out of `Processing` — it records a
`RESPONSE_INVALID_CART` audit event and no `DuplicateTransaction` event.  The
`DuplicateTransaction` audit (with the transaction id and cart status)
is recorded instead when `(gateway, psp_txn_id)` already exists while the
order is still Processing, as in the repository's duplicate-transaction
test. -/
theorem feedback_replay_settles_once (cfg : PayFortConfig) (env : Collaborators)
    (store storeD : Store) (p : Payload) (cart cartD : Cart) (siteId siteIdD : Nat)
    (ref sStr cStr : String) (cid : Nat) (fid rm po am cur arm : String)
    (href : getNonEmpty p "merchant_reference" = some ref)
    (hsplit : splitReference ref = some (sStr, cStr))
    (hparse : parseId cStr = some cid)
    (hfind : findCart store.carts cid = some cart)
    (hsite : siteProperty store.siteIds p = some siteId)
    (hsig : getField p "signature" = some (getSignature cfg.hashHex cfg.responseShaPhrase p))
    (hstatus : getField p "status" = some SUCCESS_STATUS)
    (hfmt : verifyResponseFormat p = .ok ())
    (hproc : cart.status = Cart.Status.PROCESSING)
    (hrm : getField p "response_message" = some rm)
    (hfid : getField p "fort_id" = some fid)
    (hpo : getField p "payment_option" = some po)
    (ham : getField p "amount" = some am)
    (hcur : getField p "currency" = some cur)
    (harm : getField p "acquirer_response_message" = some arm)
    (hdup : store.transactions.any (isDuplicateTxn fid) = false)
    (hsf : env.settlementFault = none)
    (hif : env.invoiceFault = none)
    (hffn : env.fulfillmentFault = none)
    (hfindD : findCart storeD.carts cid = some cartD)
    (hsiteD : siteProperty storeD.siteIds p = some siteIdD)
    (hprocD : cartD.status = Cart.Status.PROCESSING)
    (hdupD : storeD.transactions.any (isDuplicateTxn fid) = true) :
    (feedbackPost cfg env store p).result = .response 200
      ∧ findCart (feedbackPost cfg env store p).store.carts cid
          = some { cart with status := Cart.Status.PAID }
      ∧ ((feedbackPost cfg env store p).store.transactions.filter
          (isDuplicateTxn fid)).length = 1
      ∧ (feedbackPost cfg env (feedbackPost cfg env store p).store p).result
          = .response 200
      ∧ (feedbackPost cfg env (feedbackPost cfg env store p).store p).store
          = (feedbackPost cfg env store p).store
      ∧ { action := .RESPONSE_INVALID_CART, cart := some cart.id, gateway := "payfort",
          context := .invalidCart Cart.Status.PAID Cart.Status.PROCESSING : AuditEvent }
          ∈ (feedbackPost cfg env (feedbackPost cfg env store p).store p).events
      ∧ (feedbackPost cfg env (feedbackPost cfg env store p).store p).events.all
          (fun e => !(e.action == AuditAction.DUPLICATE_TRANSACTION)) = true
      ∧ (feedbackPost cfg env storeD p).result = .response 200
      ∧ (feedbackPost cfg env storeD p).store = storeD
      ∧ { action := .DUPLICATE_TRANSACTION, cart := some cartD.id, gateway := "payfort",
          context := .duplicate fid cartD.status : AuditEvent }
          ∈ (feedbackPost cfg env storeD p).events := by
  have hid : cart.id = cid := findCart_id hfind
  subst hid
  have hfind2 : findCart (markPaid store.carts cart.id) cart.id
      = some { cart with status := Cart.Status.PAID } :=
    findCart_markPaid hfind
  have hcart : cartProperty store.carts p = (some cart, []) := by
    simp only [cartProperty, href, hsplit, hparse, Option.some_bind, hfind]
  have hmain : feedbackPost cfg env store p =
      feedbackDispatch cfg env store p (some cart) (some siteId)
        [receivedEvent (some cart) p] := by
    unfold feedbackPost
    rw [hcart, hsite]
    rfl
  have hred : feedbackPost cfg env store p =
      { result := .response 200,
        store := { carts := markPaid store.carts cart.id, siteIds := store.siteIds,
                   transactions := store.transactions ++
                     [{ gateway := "payfort", cartId := some cart.id,
                        gatewayTransactionId := fid, status := rm, amount := am }],
                   invoices := store.invoices ++ [newInvoice cart fid] },
        events := [receivedEvent (some cart) p,
                   { action := .CART_FULFILLED, cart := some cart.id,
                     gateway := "payfort", context := .empty }],
        logs := [.recordingTransaction cart.id, .fulfilled cart.id] } := by
    rw [hmain]
    unfold feedbackDispatch
    dsimp only
    rw [if_pos hsig, if_neg (not_not_intro hstatus), hfmt]
    dsimp only
    rw [if_neg (not_not_intro hproc)]
    unfold feedbackSettle
    rw [hrm, hfid, hpo, ham, hcur, harm]
    dsimp only
    unfold handlePayment
    rw [if_neg (show ¬(store.transactions.any (isDuplicateTxn fid) = true) from
      fun h => by rw [hdup] at h; exact Bool.noConfusion h)]
    rw [hsf]
    dsimp only
    unfold feedbackFulfill
    rw [hif]
    dsimp only
    rw [hffn]
    rfl
  have hcart2 : cartProperty (markPaid store.carts cart.id) p
      = (some { cart with status := Cart.Status.PAID }, []) := by
    simp only [cartProperty, href, hsplit, hparse, Option.some_bind, hfind2]
  have hpaidne : ({ cart with status := Cart.Status.PAID } : Cart).status
      ≠ Cart.Status.PROCESSING := by
    show Cart.Status.PAID ≠ Cart.Status.PROCESSING
    decide
  have hred2 : feedbackPost cfg env (feedbackPost cfg env store p).store p =
      { result := .response 200,
        store := (feedbackPost cfg env store p).store,
        events := [receivedEvent (some { cart with status := Cart.Status.PAID }) p,
                   { action := .RESPONSE_INVALID_CART,
                     cart := some ({ cart with status := Cart.Status.PAID } : Cart).id,
                     gateway := "payfort",
                     context := .invalidCart
                       ({ cart with status := Cart.Status.PAID } : Cart).status
                       Cart.Status.PROCESSING }],
        logs := [.invalidCartStatus ({ cart with status := Cart.Status.PAID } : Cart).id
                   ({ cart with status := Cart.Status.PAID } : Cart).status] } := by
    rw [hred]
    unfold feedbackPost
    dsimp only
    rw [hcart2, hsite]
    dsimp only
    unfold feedbackDispatch
    dsimp only
    rw [if_pos hsig, if_neg (not_not_intro hstatus), hfmt]
    dsimp only
    rw [if_pos hpaidne]
    rfl
  have hcartD : cartProperty storeD.carts p = (some cartD, []) := by
    simp only [cartProperty, href, hsplit, hparse, Option.some_bind, hfindD]
  have hmainD : feedbackPost cfg env storeD p =
      feedbackDispatch cfg env storeD p (some cartD) (some siteIdD)
        [receivedEvent (some cartD) p] := by
    unfold feedbackPost
    rw [hcartD, hsiteD]
    rfl
  have hredD : feedbackPost cfg env storeD p =
      { result := .response 200,
        store := storeD,
        events := [receivedEvent (some cartD) p,
                   { action := .DUPLICATE_TRANSACTION, cart := some cartD.id,
                     gateway := "payfort", context := .duplicate fid cartD.status }],
        logs := [.recordingTransaction cartD.id] } := by
    rw [hmainD]
    unfold feedbackDispatch
    dsimp only
    rw [if_pos hsig, if_neg (not_not_intro hstatus), hfmt]
    dsimp only
    rw [if_neg (not_not_intro hprocD)]
    unfold feedbackSettle
    rw [hrm, hfid, hpo, ham, hcur, harm]
    dsimp only
    unfold handlePayment
    rw [if_pos hdupD]
    rfl
  refine ⟨by rw [hred], ?_, ?_, by rw [hred2], by rw [hred2], ?_, ?_, by rw [hredD],
    by rw [hredD], ?_⟩
  · rw [hred]
    exact hfind2
  · rw [hred]
    dsimp only
    exact filter_dup_append_singleton hdup _ (by simp [isDuplicateTxn])
  · rw [hred2]
    exact List.mem_cons_of_mem _ (List.mem_cons_self _ _)
  · rw [hred2]
    rfl
  · rw [hredD]
    exact List.mem_cons_of_mem _ (List.mem_cons_self _ _)

/-- Witness for C1 (amended): the concrete double submission (second call
records no duplicate event) and the concrete pre-seeded duplicate store
(duplicate event recorded). -/
theorem feedback_replay_settles_once_witness :
    (feedbackPost testConfig noFaults testStore testPayload).result = .response 200
      ∧ (feedbackPost testConfig noFaults
          (feedbackPost testConfig noFaults testStore testPayload).store
          testPayload).events.all
          (fun e => !(e.action == AuditAction.DUPLICATE_TRANSACTION)) = true
      ∧ { action := .DUPLICATE_TRANSACTION, cart := some testCart.id, gateway := "payfort",
          context := .duplicate "F1" testCart.status : AuditEvent }
          ∈ (feedbackPost testConfig noFaults dupStore testPayload).events := by
  obtain ⟨h1, h2, h3, h4, h5, h6, h7, h8, h9, h10⟩ :=
    feedback_replay_settles_once testConfig noFaults testStore dupStore testPayload
      testCart testCart 1 1 "1-1" "1" "1" 1 "F1" "Success" "VISA" "150" "SAR" "Success"
      (by decide) (by decide) (by decide) (by decide) (by decide) (by decide) (by decide)
      (by rfl) (by rfl) (by decide) (by decide) (by decide) (by decide) (by decide)
      (by decide) (by rfl) (by rfl) (by rfl) (by rfl) (by decide) (by decide)
      (by rfl) (by rfl)
  exact ⟨h1, h7, h10⟩

end Payfort
